import Mathlib

/-
Verification of the `Embed` builder/serializer of `discord_http/embeds.py`.

The Python class is embedded shallowly:
  * attribute state becomes a Lean structure (`Embed`);
  * each mutator becomes a function `Embed → ... → Embed` (the fluent
    `return self` is the returned value);
  * the transport mapping produced by `to_dict` / consumed by `from_dict`
    becomes the structure `EmbedDict`, with `Option` marking key presence
    (the transport shape of spec §6: footer/image/thumbnail/author have
    only their recognized keys);
  * Python truthiness (`if self.title:`, `if not any((text, icon_url)):`)
    becomes explicit `pyTruthy…` Boolean functions;
  * `to_dict` returns the mapping together with the post-state, because it
    mutates `self.timestamp` when the stored datetime is naive;
  * `datetime` is modelled by `DateTime` (a wall-clock value plus an
    optional UTC offset; `none` = naive); `astimezone()` on a naive value
    attaches the ambient local offset, which is passed to `to_dict` as an
    explicit argument `localTz`;
  * after `from_dict`, `self.timestamp` holds the raw string from the
    mapping, not a datetime; `TsVal` distinguishes the two cases.

A second, heap-based model (`EmbedA`) is used for the aliasing behaviour of
`copy()`: in Python, `to_dict` stores the very dict object `self.footer`
in the mapping and `from_dict` stores that object back into the new
instance, so the "copy" shares its footer dict with the original.
-/

namespace DiscordHttp

/-- Modelled from the spec: `Colour` (src file `colour.py` is not part of
the provided sources) is "a value type that normalizes a 24-bit RGB integer";
it constructs from and converts to a plain integer (`int(colour)` = the
stored value) and compares by value. -/
structure Colour where
  val : Nat
deriving DecidableEq

/-- Modelled from the spec: a zero colour is falsy under the omission rule
("`Embed().set_colour(0).to_dict()` omits `color` (zero is falsy under the
omission rule)"), any other colour is truthy. -/
def Colour.pyTruthy (c : Colour) : Bool := c.val != 0

/-- Modelled from the spec: `str()` of the colour wrapper renders its
integer value. Only used inside `__repr__`; no claim inspects the format. -/
def Colour.pyStr (c : Colour) : String := toString c.val

/-- A Python `datetime`: a wall-clock value plus an optional UTC offset
(`tz = none` models `tzinfo is None`, i.e. a naive datetime). -/
structure DateTime where
  wall : Int
  tz : Option Int
deriving DecidableEq

/-- `datetime.isoformat()`: renders the wall-clock value, the ISO date/time
separator and the offset when the value is timezone-aware. -/
def DateTime.isoformat (d : DateTime) : String :=
  toString d.wall ++ "T" ++
    (match d.tz with
     | none => ""
     | some o => "+" ++ toString o)

/-- `datetime.astimezone()` with no argument on a naive value: the value is
assumed to be local time, so the result keeps the wall clock and carries
the ambient local offset. On an aware value the code never calls it. -/
def DateTime.astimezone (d : DateTime) (localTz : Int) : DateTime :=
  { d with tz := some localTz }

/-- What `self.timestamp` can hold: a real `datetime`, or the raw ISO
string that `from_dict` stores verbatim from the transport mapping. -/
inductive TsVal
  | dt (d : DateTime)
  | str (s : String)
deriving DecidableEq

/-- Python truthiness of a timestamp value: a `datetime` is always truthy,
a string is truthy iff nonempty. -/
def TsVal.pyTruthy : TsVal → Bool
  | .dt _ => true
  | .str s => s != ""

/-- Python truthiness of an optional string attribute or argument:
`None` and `""` are falsy. -/
def pyTruthyStrOpt : Option String → Bool
  | none => false
  | some s => s != ""

/-- The `footer` dict: keys `text` and `icon_url`, each possibly absent.
The empty dict is `⟨none, none⟩`. -/
structure FooterData where
  text : Option String
  icon_url : Option String
deriving DecidableEq

/-- Python truthiness of the footer dict: truthy iff it has at least one key. -/
def FooterData.pyTruthy (f : FooterData) : Bool :=
  f.text.isSome || f.icon_url.isSome

/-- The `author` dict: keys `name`, `url`, `icon_url`, each possibly absent. -/
structure AuthorData where
  name : Option String
  url : Option String
  icon_url : Option String
deriving DecidableEq

/-- Python truthiness of the author dict: truthy iff it has at least one key. -/
def AuthorData.pyTruthy (a : AuthorData) : Bool :=
  a.name.isSome || a.url.isSome || a.icon_url.isSome

/-- One element of `fields`: the dict `add_field` appends. `inline` is
`Option Bool` because a field record coming in through `from_dict` need
not carry the key, while `add_field` always writes it. -/
structure Field where
  name : String
  value : String
  inline : Option Bool
deriving DecidableEq

/-- The `image` / `thumbnail` dict: either empty (`none`) or `{"url": s}`. -/
abbrev ImageDict := Option String

/-- The attribute state of an `Embed` instance. `_colour` is the stray
attribute written by `set_colour`; the outer `Option` is `none` while the
attribute does not exist on the instance (neither `__init__` nor
`from_dict` creates it). -/
structure Embed where
  colour : Option Colour
  title : Option String
  description : Option String
  timestamp : Option TsVal
  url : Option String
  type : String
  footer : FooterData
  image : ImageDict
  thumbnail : ImageDict
  author : AuthorData
  fields : List Field
  _colour : Option (Option Colour) := none
deriving DecidableEq

/-- A constructor colour argument: `Colour | int` (before the `None` case,
which is the surrounding `Option`). `int(·)` works on both. -/
inductive ColourArg
  | raw (n : Nat)
  | wrap (c : Colour)
deriving DecidableEq

/-- `int(value)` on a colour argument. -/
def ColourArg.toInt : ColourArg → Nat
  | .raw n => n
  | .wrap c => c.val

/-- `Embed.__init__`: `colour` takes precedence over `color`, both
normalized through `Colour(int(·))`; `type` starts as `"rich"`; the
composite sub-structures start empty. `title`/`description` arrive as
strings, so `str()` is the identity on them. -/
def Embed.init (title description : Option String)
    (colour color : Option ColourArg)
    (url : Option String) (timestamp : Option DateTime) : Embed :=
  { colour :=
      match colour with
      | some v => some ⟨v.toInt⟩
      | none =>
        match color with
        | some v => some ⟨v.toInt⟩
        | none => none
    title := title
    description := description
    timestamp := timestamp.map .dt
    url := url
    type := "rich"
    footer := ⟨none, none⟩
    image := none
    thumbnail := none
    author := ⟨none, none, none⟩
    fields := []
    _colour := none }

/-- `__repr__` helper: how an optional string attribute prints inside an
f-string (`None` prints as `None`). -/
def pyStrOpt : Option String → String
  | none => "None"
  | some s => s

/-- `__repr__` helper: how the colour attribute prints inside an f-string. -/
def pyStrColourOpt : Option Colour → String
  | none => "None"
  | some c => c.pyStr

/-- `Embed.__repr__`. -/
def Embed.reprStr (e : Embed) : String :=
  "<Embed title=" ++ pyStrOpt e.title ++ " colour=" ++ pyStrColourOpt e.colour ++ ">"

/-- `Embed.set_colour`: writes the attribute `_colour` (not `colour`). -/
def Embed.set_colour (e : Embed) (value : Option ColourArg) : Embed :=
  match value with
  | none => { e with _colour := some none }
  | some v => { e with _colour := some (some ⟨v.toInt⟩) }

/-- `Embed.set_footer`: with both arguments falsy the dict is cleared;
otherwise each truthy argument overwrites its key, the other key keeps its
prior value. -/
def Embed.set_footer (e : Embed) (text icon_url : Option String) : Embed :=
  if !(pyTruthyStrOpt text || pyTruthyStrOpt icon_url) then
    { e with footer := ⟨none, none⟩ }
  else
    { e with footer :=
      ⟨if pyTruthyStrOpt text then text else e.footer.text,
       if pyTruthyStrOpt icon_url then icon_url else e.footer.icon_url⟩ }

/-- `Embed.remove_footer`. -/
def Embed.remove_footer (e : Embed) : Embed :=
  { e with footer := ⟨none, none⟩ }

/-- `Embed.set_author`: `name` is always (over)written; `url`/`icon_url`
are written when not `None` (an `is not None` check, not truthiness). -/
def Embed.set_author (e : Embed) (name : String) (url icon_url : Option String) : Embed :=
  { e with author :=
    ⟨some name,
     match url with | some u => some u | none => e.author.url,
     match icon_url with | some u => some u | none => e.author.icon_url⟩ }

/-- `Embed.remove_author`. -/
def Embed.remove_author (e : Embed) : Embed :=
  { e with author := ⟨none, none, none⟩ }

/-- `Embed.set_image`: a non-`None` url sets the `url` key (even when the
string is empty — the check is `is not None`); `None` clears the dict. -/
def Embed.set_image (e : Embed) (url : Option String) : Embed :=
  match url with
  | some u => { e with image := some u }
  | none => { e with image := none }

/-- `Embed.remove_image`. -/
def Embed.remove_image (e : Embed) : Embed :=
  { e with image := none }

/-- `Embed.set_thumbnail`: identical contract to `set_image`. -/
def Embed.set_thumbnail (e : Embed) (url : Option String) : Embed :=
  match url with
  | some u => { e with thumbnail := some u }
  | none => { e with thumbnail := none }

/-- `Embed.remove_thumbnail`. -/
def Embed.remove_thumbnail (e : Embed) : Embed :=
  { e with thumbnail := none }

/-- `Embed.add_field`: appends `{"name": …, "value": …, "inline": …}`. -/
def Embed.add_field (e : Embed) (name value : String) (inline : Bool := true) : Embed :=
  { e with fields := e.fields ++ [⟨name, value, some inline⟩] }

/-- Python sequence index resolution: a negative index has the length added
to it before the bounds check. -/
def pyIndex (n : Nat) (i : Int) : Int := if i < 0 then i + n else i

/-- `del self.fields[index]` with Python index semantics: a negative index
counts from the end; an index out of range raises `IndexError` (`none`). -/
def delAt (l : List Field) (i : Int) : Option (List Field) :=
  if 0 ≤ pyIndex l.length i ∧ pyIndex l.length i < (l.length : Int) then
    some (l.eraseIdx (pyIndex l.length i).toNat)
  else none

/-- `Embed.remove_field`: `del self.fields[index]`, an `IndexError` is
swallowed. -/
def Embed.remove_field (e : Embed) (index : Int) : Embed :=
  match delAt e.fields index with
  | some l => { e with fields := l }
  | none => e

/-- The transport mapping of spec §6; `none` = key absent. -/
structure EmbedDict where
  title : Option String := none
  description : Option String := none
  url : Option String := none
  author : Option AuthorData := none
  color : Option Nat := none
  footer : Option FooterData := none
  image : Option ImageDict := none
  thumbnail : Option ImageDict := none
  fields : Option (List Field) := none
  timestamp : Option String := none
  type : Option String := none
deriving DecidableEq

/-- `Embed.from_dict`: built through `cls.__new__`, so `_colour` is never
created; `colour` is wrapped from the raw `color` integer when the key is
present (even 0, since the check is `is not None`); `timestamp` receives
the raw string; the composites default to their empty forms. -/
def Embed.from_dict (data : EmbedDict) : Embed :=
  { colour := data.color.map Colour.mk
    title := data.title
    description := data.description
    timestamp := data.timestamp.map .str
    url := data.url
    type := data.type.getD "rich"
    footer := (data.footer.getD ⟨none, none⟩)
    image := (data.image.getD none)
    thumbnail := (data.thumbnail.getD none)
    author := (data.author.getD ⟨none, none, none⟩)
    fields := data.fields.getD []
    _colour := none }

/-- The local mapping `embed` that `to_dict` has built when it reaches the
timestamp block: each truthy attribute is emitted (colour as a plain
integer under the key `color`; `type` is never emitted). -/
def Embed.baseDict (e : Embed) : EmbedDict :=
  { title := if pyTruthyStrOpt e.title then e.title else none
    description := if pyTruthyStrOpt e.description then e.description else none
    url := if pyTruthyStrOpt e.url then e.url else none
    author := if e.author.pyTruthy then some e.author else none
    color :=
      match e.colour with
      | some c => if c.pyTruthy then some c.val else none
      | none => none
    footer := if e.footer.pyTruthy then some e.footer else none
    image := if e.image.isSome then some e.image else none
    thumbnail := if e.thumbnail.isSome then some e.thumbnail else none
    fields := if e.fields.isEmpty then none else some e.fields
    timestamp := none
    type := none }

/-- `Embed.to_dict`: the base mapping, and then the timestamp block: a
timestamp is emitted only when it is a truthy `datetime`, in which case a
naive value is first replaced, on the instance itself, by its
`astimezone()` image. The result is the mapping together with the
post-state of the instance. -/
def Embed.to_dict (localTz : Int) (e : Embed) : EmbedDict × Embed :=
  match e.timestamp with
  | some (.dt d0) =>
    if (TsVal.dt d0).pyTruthy then
      let d1 := if d0.tz.isNone then d0.astimezone localTz else d0
      ({ e.baseDict with timestamp := some d1.isoformat },
       { e with timestamp := some (.dt d1) })
    else (e.baseDict, e)
  | _ => (e.baseDict, e)

/-- `Embed.copy` in the value model: serialize then deserialize (the
aliasing this creates in Python is treated separately in the `EmbedA`
model below). -/
def Embed.copy (localTz : Int) (e : Embed) : Embed :=
  Embed.from_dict (Embed.to_dict localTz e).1

/-! ### Reference-semantics model of `copy`

In CPython, `to_dict` executes `embed["footer"] = self.footer`: the mapping
holds the very dict object the instance holds, not a copy of it.
`from_dict` then executes `self.footer = data.get("footer", {})`, so the
instance built by `copy = from_dict ∘ to_dict` holds the same footer dict
object as the original whenever that dict was non-empty (when it was empty
it is omitted and `from_dict`'s default allocates a fresh `{}`).
`set_footer` mutates that dict in place (`self.footer["text"] = …` /
`self.footer.clear()`). To reason about this, footer dicts live in an
explicit heap (a list of `FooterData`, addressed by index) and an embed
holds the address of its footer dict. Only the fields needed to exhibit
the behaviour (`title` by value, `footer` by reference) are carried. -/

/-- The heap of footer dict objects; an address is an index. -/
abbrev Heap := List FooterData

/-- Dereference a footer dict address. -/
def readF (h : Heap) (a : Nat) : FooterData := h.getD a ⟨none, none⟩

/-- Overwrite the footer dict object at an address. -/
def writeF (h : Heap) (a : Nat) (f : FooterData) : Heap := h.set a f

/-- Allocate a fresh footer dict object (`{}` at a new address). -/
def allocF (h : Heap) (f : FooterData) : Heap × Nat := (h ++ [f], h.length)

/-- An embed in the reference model: `footer` is the address of its dict. -/
structure EmbedA where
  title : Option String
  footer : Nat
deriving DecidableEq

/-- The transport mapping in the reference model: when the footer key is
present it holds the dict object itself, i.e. its address. -/
structure EmbedDictA where
  title : Option String := none
  footer : Option Nat := none
deriving DecidableEq

/-- `to_dict` in the reference model: `embed["footer"] = self.footer`
stores the address; as in the source, the key appears iff the dict is
truthy (non-empty). -/
def EmbedA.to_dictA (h : Heap) (e : EmbedA) : EmbedDictA :=
  { title := if pyTruthyStrOpt e.title then e.title else none
    footer := if (readF h e.footer).pyTruthy then some e.footer else none }

/-- `from_dict` in the reference model: `self.footer = data.get("footer", {})`
stores the very object from the mapping; when the key is absent the
default `{}` is a fresh empty dict. -/
def from_dictA (h : Heap) (d : EmbedDictA) : Heap × EmbedA :=
  match d.footer with
  | some a => (h, ⟨d.title, a⟩)
  | none =>
    let (h1, a) := allocF h ⟨none, none⟩
    (h1, ⟨d.title, a⟩)

/-- `copy` in the reference model: `from_dict(to_dict(self))`. -/
def EmbedA.copyA (h : Heap) (e : EmbedA) : Heap × EmbedA :=
  from_dictA h (e.to_dictA h)

/-- `set_footer` in the reference model: mutates the dict object the
instance's `footer` attribute points to, in place. -/
def EmbedA.set_footerA (e : EmbedA) (h : Heap) (text icon_url : Option String) : Heap :=
  let f := readF h e.footer
  if !(pyTruthyStrOpt text || pyTruthyStrOpt icon_url) then
    writeF h e.footer ⟨none, none⟩
  else
    writeF h e.footer
      ⟨if pyTruthyStrOpt text then text else f.text,
       if pyTruthyStrOpt icon_url then icon_url else f.icon_url⟩

end DiscordHttp
namespace DiscordHttp

/-! ### Helper lemmas -/

lemma to_dict_fst_eq_base (localTz : Int) (e : Embed) :
    (Embed.to_dict localTz e).1 =
      { e.baseDict with timestamp := (Embed.to_dict localTz e).1.timestamp } := by
  cases hts : e.timestamp with
  | none => simp [Embed.to_dict, hts]
  | some v =>
    cases v with
    | dt d0 => simp [Embed.to_dict, hts, TsVal.pyTruthy]
    | str s => simp [Embed.to_dict, hts]

lemma to_dict_title (z : Int) (e : Embed) :
    (Embed.to_dict z e).1.title = e.baseDict.title := by
  rw [to_dict_fst_eq_base]

lemma to_dict_description (z : Int) (e : Embed) :
    (Embed.to_dict z e).1.description = e.baseDict.description := by
  rw [to_dict_fst_eq_base]

lemma to_dict_url (z : Int) (e : Embed) :
    (Embed.to_dict z e).1.url = e.baseDict.url := by
  rw [to_dict_fst_eq_base]

lemma to_dict_author (z : Int) (e : Embed) :
    (Embed.to_dict z e).1.author = e.baseDict.author := by
  rw [to_dict_fst_eq_base]

lemma to_dict_color (z : Int) (e : Embed) :
    (Embed.to_dict z e).1.color = e.baseDict.color := by
  rw [to_dict_fst_eq_base]

lemma to_dict_footer (z : Int) (e : Embed) :
    (Embed.to_dict z e).1.footer = e.baseDict.footer := by
  rw [to_dict_fst_eq_base]

lemma to_dict_image (z : Int) (e : Embed) :
    (Embed.to_dict z e).1.image = e.baseDict.image := by
  rw [to_dict_fst_eq_base]

lemma to_dict_thumbnail (z : Int) (e : Embed) :
    (Embed.to_dict z e).1.thumbnail = e.baseDict.thumbnail := by
  rw [to_dict_fst_eq_base]

lemma to_dict_fields (z : Int) (e : Embed) :
    (Embed.to_dict z e).1.fields = e.baseDict.fields := by
  rw [to_dict_fst_eq_base]

lemma to_dict_type (z : Int) (e : Embed) :
    (Embed.to_dict z e).1.type = none := by
  rw [to_dict_fst_eq_base]
  simp [Embed.baseDict]

lemma to_dict_timestamp_cases (z : Int) (e : Embed) :
    (Embed.to_dict z e).1.timestamp = none ∨
    ∃ d1 : DateTime, (Embed.to_dict z e).1.timestamp = some d1.isoformat := by
  cases hts : e.timestamp with
  | none => left; simp [Embed.to_dict, hts, Embed.baseDict]
  | some v =>
    cases v with
    | dt d0 =>
      right
      refine ⟨if d0.tz.isNone then d0.astimezone z else d0, ?_⟩
      simp [Embed.to_dict, hts, TsVal.pyTruthy]
    | str s => left; simp [Embed.to_dict, hts, Embed.baseDict]

lemma Colour.eta (c : Colour) : (⟨c.val⟩ : Colour) = c := rfl

lemma eraseIdx_concat (l : List Field) (x : Field) :
    (l ++ [x]).eraseIdx l.length = l := by
  induction l with
  | nil => rfl
  | cons a t ih => simpa [List.eraseIdx] using ih

lemma isoformat_ne_empty (d : DateTime) : d.isoformat ≠ "" := by
  intro h
  have h2 := congrArg String.length h
  rw [DateTime.isoformat, String.length_append, String.length_append] at h2
  simp at h2
  exact (by decide : ¬ ("T".length = 0)) h2.1.2

lemma length_eraseIdx_lt (l : List Field) (j : Nat) (h : j < l.length) :
    (l.eraseIdx j).length = l.length - 1 := by
  rw [List.length_eraseIdx]
  simp [h]

lemma delAt_eq_none (l : List Field) (i : Int)
    (h : (l.length : Int) ≤ i ∨ i < -(l.length : Int)) : delAt l i = none := by
  unfold delAt pyIndex
  rw [if_neg]
  rintro ⟨ha, hb⟩
  by_cases hi : i < 0 <;> simp [hi] at ha hb <;> omega

lemma delAt_eq_some (l : List Field) (i : Int)
    (h1 : -(l.length : Int) ≤ i) (h2 : i < (l.length : Int)) :
    delAt l i = some (l.eraseIdx (pyIndex l.length i).toNat) ∧
    (pyIndex l.length i).toNat < l.length := by
  constructor
  · unfold delAt
    rw [if_pos]
    unfold pyIndex
    by_cases hi : i < 0 <;> simp [hi] <;> omega
  · unfold pyIndex
    by_cases hi : i < 0 <;> simp [hi] <;> omega

end DiscordHttp
namespace DiscordHttp

/-! ### The claims -/

/-- C1 (counterexample): the round trip does not reproduce the timestamp
field. For the embed constructed with the aware datetime ⟨5, +0⟩ the
timestamp key survives serialization, yet the round-tripped instance holds
the ISO string (a `TsVal.str`), not the original datetime. -/
theorem C1_counterexample :
    (Embed.to_dict 0 (Embed.init none none none none none (some ⟨5, some 0⟩))).1.timestamp.isSome = true ∧
    (Embed.from_dict (Embed.to_dict 0 (Embed.init none none none none none (some ⟨5, some 0⟩))).1).timestamp
      ≠ (Embed.init none none none none none (some ⟨5, some 0⟩)).timestamp := by
  decide

/-- C1 (amended): `from_dict(to_dict(e))` reproduces every one of title,
description, url, colour, type, footer, image, thumbnail, author and fields
that survives serialization; the timestamp, however, comes back as the raw
ISO-8601 string emitted under the timestamp key (a string, not the
original datetime value). -/
theorem C1_round_trip_amended (z : Int) (e : Embed) :
    ((Embed.to_dict z e).1.title.isSome →
      (Embed.from_dict (Embed.to_dict z e).1).title = e.title) ∧
    ((Embed.to_dict z e).1.description.isSome →
      (Embed.from_dict (Embed.to_dict z e).1).description = e.description) ∧
    ((Embed.to_dict z e).1.url.isSome →
      (Embed.from_dict (Embed.to_dict z e).1).url = e.url) ∧
    ((Embed.to_dict z e).1.color.isSome →
      (Embed.from_dict (Embed.to_dict z e).1).colour = e.colour) ∧
    ((Embed.to_dict z e).1.type.isSome →
      (Embed.from_dict (Embed.to_dict z e).1).type = e.type) ∧
    ((Embed.to_dict z e).1.footer.isSome →
      (Embed.from_dict (Embed.to_dict z e).1).footer = e.footer) ∧
    ((Embed.to_dict z e).1.image.isSome →
      (Embed.from_dict (Embed.to_dict z e).1).image = e.image) ∧
    ((Embed.to_dict z e).1.thumbnail.isSome →
      (Embed.from_dict (Embed.to_dict z e).1).thumbnail = e.thumbnail) ∧
    ((Embed.to_dict z e).1.author.isSome →
      (Embed.from_dict (Embed.to_dict z e).1).author = e.author) ∧
    ((Embed.to_dict z e).1.fields.isSome →
      (Embed.from_dict (Embed.to_dict z e).1).fields = e.fields) ∧
    (Embed.from_dict (Embed.to_dict z e).1).timestamp
      = (Embed.to_dict z e).1.timestamp.map TsVal.str := by
  refine ⟨?_, ?_, ?_, ?_, ?_, ?_, ?_, ?_, ?_, ?_, ?_⟩
  · show (Embed.to_dict z e).1.title.isSome → (Embed.to_dict z e).1.title = e.title
    rw [to_dict_title]
    simp only [Embed.baseDict]
    split <;> simp
  · show (Embed.to_dict z e).1.description.isSome →
      (Embed.to_dict z e).1.description = e.description
    rw [to_dict_description]
    simp only [Embed.baseDict]
    split <;> simp
  · show (Embed.to_dict z e).1.url.isSome → (Embed.to_dict z e).1.url = e.url
    rw [to_dict_url]
    simp only [Embed.baseDict]
    split <;> simp
  · show (Embed.to_dict z e).1.color.isSome →
      (Embed.to_dict z e).1.color.map Colour.mk = e.colour
    rw [to_dict_color]
    simp only [Embed.baseDict]
    cases hc : e.colour with
    | none => simp
    | some c =>
      by_cases hp : c.pyTruthy
      · simp [hp, Colour.eta]
      · simp [hp]
  · rw [to_dict_type]
    simp
  · show (Embed.to_dict z e).1.footer.isSome →
      ((Embed.to_dict z e).1.footer.getD ⟨none, none⟩) = e.footer
    rw [to_dict_footer]
    simp only [Embed.baseDict]
    split <;> simp
  · show (Embed.to_dict z e).1.image.isSome →
      ((Embed.to_dict z e).1.image.getD none) = e.image
    rw [to_dict_image]
    simp only [Embed.baseDict]
    split <;> simp
  · show (Embed.to_dict z e).1.thumbnail.isSome →
      ((Embed.to_dict z e).1.thumbnail.getD none) = e.thumbnail
    rw [to_dict_thumbnail]
    simp only [Embed.baseDict]
    split <;> simp
  · show (Embed.to_dict z e).1.author.isSome →
      ((Embed.to_dict z e).1.author.getD ⟨none, none, none⟩) = e.author
    rw [to_dict_author]
    simp only [Embed.baseDict]
    split <;> simp
  · show (Embed.to_dict z e).1.fields.isSome →
      ((Embed.to_dict z e).1.fields.getD []) = e.fields
    rw [to_dict_fields]
    simp only [Embed.baseDict]
    split <;> simp
  · rfl

/-- C2: the mapping `to_dict` returns never holds a key whose value is an
empty string, an empty mapping, an empty sequence or colour 0 (absence is
modelled by `none`, so no key can hold null); and a field appended by
`add_field` always carries its `inline` key with the given boolean. -/
theorem C2_to_dict_omits_falsy (z : Int) (e : Embed) (n v : String) (b : Bool) :
    (Embed.to_dict z e).1.title ≠ some "" ∧
    (Embed.to_dict z e).1.description ≠ some "" ∧
    (Embed.to_dict z e).1.url ≠ some "" ∧
    (Embed.to_dict z e).1.color ≠ some 0 ∧
    (Embed.to_dict z e).1.footer ≠ some ⟨none, none⟩ ∧
    (Embed.to_dict z e).1.author ≠ some ⟨none, none, none⟩ ∧
    (Embed.to_dict z e).1.image ≠ some none ∧
    (Embed.to_dict z e).1.thumbnail ≠ some none ∧
    (Embed.to_dict z e).1.fields ≠ some [] ∧
    (Embed.to_dict z e).1.timestamp ≠ some "" ∧
    (e.add_field n v b).fields = e.fields ++ [⟨n, v, some b⟩] := by
  refine ⟨?_, ?_, ?_, ?_, ?_, ?_, ?_, ?_, ?_, ?_, rfl⟩
  · rw [to_dict_title]
    simp only [Embed.baseDict]
    split <;> rename_i h
    · cases ht : e.title with
      | none => simp
      | some s =>
        rw [ht] at h
        simp [pyTruthyStrOpt] at h
        simp [h]
    · simp
  · rw [to_dict_description]
    simp only [Embed.baseDict]
    split <;> rename_i h
    · cases ht : e.description with
      | none => simp
      | some s =>
        rw [ht] at h
        simp [pyTruthyStrOpt] at h
        simp [h]
    · simp
  · rw [to_dict_url]
    simp only [Embed.baseDict]
    split <;> rename_i h
    · cases ht : e.url with
      | none => simp
      | some s =>
        rw [ht] at h
        simp [pyTruthyStrOpt] at h
        simp [h]
    · simp
  · rw [to_dict_color]
    simp only [Embed.baseDict]
    cases hc : e.colour with
    | none => simp
    | some c =>
      by_cases hp : c.pyTruthy
      · have hv : c.val ≠ 0 := by simpa [Colour.pyTruthy] using hp
        simp [hp, hv]
      · simp [hp]
  · rw [to_dict_footer]
    simp only [Embed.baseDict]
    split <;> rename_i h
    · intro hq
      rw [Option.some_inj.mp hq] at h
      simp [FooterData.pyTruthy] at h
    · simp
  · rw [to_dict_author]
    simp only [Embed.baseDict]
    split <;> rename_i h
    · intro hq
      rw [Option.some_inj.mp hq] at h
      simp [AuthorData.pyTruthy] at h
    · simp
  · rw [to_dict_image]
    simp only [Embed.baseDict]
    split <;> rename_i h
    · intro hq
      rw [Option.some_inj.mp hq] at h
      simp at h
    · simp
  · rw [to_dict_thumbnail]
    simp only [Embed.baseDict]
    split <;> rename_i h
    · intro hq
      rw [Option.some_inj.mp hq] at h
      simp at h
    · simp
  · rw [to_dict_fields]
    simp only [Embed.baseDict]
    split <;> rename_i h
    · simp
    · intro hq
      rw [Option.some_inj.mp hq] at h
      simp at h
  · rcases to_dict_timestamp_cases z e with h | ⟨d1, h⟩
    · simp [h]
    · rw [h]
      intro hq
      exact isoformat_ne_empty d1 (Option.some_inj.mp hq)

/-- C3: `set_colour` writes the attribute `_colour`, which is distinct from
`colour`; the value read back through `colour`, the `__repr__` rendering and
the `color` key emitted by `to_dict` are all unchanged by the call. -/
theorem C3_set_colour_dead_write (z : Int) (e : Embed) (v : Option ColourArg) :
    (e.set_colour v)._colour = some (v.map fun a => (⟨a.toInt⟩ : Colour)) ∧
    (e.set_colour v).colour = e.colour ∧
    (e.set_colour v).reprStr = e.reprStr ∧
    (Embed.to_dict z (e.set_colour v)).1.color = (Embed.to_dict z e).1.color := by
  cases v with
  | none => exact ⟨rfl, rfl, rfl, by rw [to_dict_color, to_dict_color]; rfl⟩
  | some a => exact ⟨rfl, rfl, rfl, by rw [to_dict_color, to_dict_color]; rfl⟩

/-- C4 (code bug): `copy` shares its footer dict object with the original,
so mutating the copy through `set_footer` changes the original's observable
footer. Evaluated at the failing input: the original holds footer
`{"text": "a"}` at address 0; the copy holds the same address; after
`copy.set_footer(text="b")` the original's footer reads `{"text": "b"}`. -/
theorem C4_copy_shares_footer_dict :
    ((EmbedA.copyA [⟨some "a", none⟩] ⟨some "t", 0⟩).2.footer
      = (⟨some "t", 0⟩ : EmbedA).footer) ∧
    readF [⟨some "a", none⟩] (⟨some "t", 0⟩ : EmbedA).footer = ⟨some "a", none⟩ ∧
    readF
      ((EmbedA.copyA [⟨some "a", none⟩] ⟨some "t", 0⟩).2.set_footerA
        (EmbedA.copyA [⟨some "a", none⟩] ⟨some "t", 0⟩).1 (some "b") none)
      (⟨some "t", 0⟩ : EmbedA).footer = ⟨some "b", none⟩ := by
  decide

/-- C5: footer updates merge while image updates replace: after
`set_footer(text="a", icon_url="b")`, a further `set_footer(text="a")`
keeps `icon_url="b"`; after `set_image(url="x")`, a further
`set_image(url=None)` leaves the image mapping empty. -/
theorem C5_footer_merges_image_replaces (e : Embed) :
    ((e.set_footer (some "a") (some "b")).set_footer (some "a") none).footer
      = ⟨some "a", some "b"⟩ ∧
    ((e.set_image (some "x")).set_image none).image = none := by
  refine ⟨?_, rfl⟩
  simp [Embed.set_footer, pyTruthyStrOpt]

/-- C6: `remove_field` with an out-of-range index (at least the length, or
below minus the length) returns the instance unchanged; the embedded
function is total because the source catches the only error `del` can
raise (`IndexError`). -/
theorem C6_remove_field_out_of_range (e : Embed) (i : Int)
    (h : (e.fields.length : Int) ≤ i ∨ i < -(e.fields.length : Int)) :
    e.remove_field i = e := by
  unfold Embed.remove_field
  rw [delAt_eq_none e.fields i h]

/-- A sample embed with two fields, used to instantiate the hypotheses of
the `remove_field` theorems. -/
def twoFieldEmbed : Embed :=
  ((Embed.init none none none none none none).add_field "A" "B" true).add_field
    "C" "D" true

/-- C6 witness: removing index 99 from a two-field embed leaves it
unchanged. -/
theorem C6_remove_field_out_of_range_witness :
    ((twoFieldEmbed.fields.length : Int) ≤ 99 ∨
      (99 : Int) < -(twoFieldEmbed.fields.length : Int)) ∧
    twoFieldEmbed.remove_field 99 = twoFieldEmbed :=
  ⟨Or.inl (by decide),
   C6_remove_field_out_of_range twoFieldEmbed 99 (Or.inl (by decide))⟩

/-- C7: `add_field` followed by `remove_field` at the index of the appended
record (the prior length) restores the instance exactly. -/
theorem C7_add_then_remove_last (e : Embed) (n v : String) (b : Bool) :
    (e.add_field n v b).remove_field (e.fields.length : Int) = e := by
  unfold Embed.remove_field
  have hd : delAt (e.add_field n v b).fields (e.fields.length : Int)
      = some e.fields := by
    have h := delAt_eq_some (e.add_field n v b).fields (e.fields.length : Int)
      (by simp [Embed.add_field]; omega) (by simp [Embed.add_field])
    rw [h.1]
    have hj : (pyIndex (e.add_field n v b).fields.length
        (e.fields.length : Int)).toNat = e.fields.length := by
      unfold pyIndex
      rw [if_neg (by omega)]
      omega
    rw [hj]
    show some ((e.fields ++ [(⟨n, v, some b⟩ : Field)]).eraseIdx e.fields.length)
      = some e.fields
    rw [eraseIdx_concat]
  rw [hd]
  rfl

/-- C8: `to_dict` emits the timestamp key iff the stored timestamp is a
truthy datetime value; a naive datetime is first replaced on the instance
by its timezone-aware `astimezone` image (local zone attached), and the
emitted value is the ISO string of the (possibly normalized) datetime; an
aware datetime is left untouched. -/
theorem C8_timestamp_emission (z : Int) (e : Embed) :
    ((Embed.to_dict z e).1.timestamp.isSome ↔
      ∃ d0, e.timestamp = some (.dt d0) ∧ (TsVal.dt d0).pyTruthy = true) ∧
    (∀ d0, e.timestamp = some (.dt d0) → d0.tz = none →
      (Embed.to_dict z e).2.timestamp = some (.dt (d0.astimezone z)) ∧
      (d0.astimezone z).tz = some z ∧
      (Embed.to_dict z e).1.timestamp = some (d0.astimezone z).isoformat) ∧
    (∀ d0, e.timestamp = some (.dt d0) → d0.tz ≠ none →
      (Embed.to_dict z e).2.timestamp = e.timestamp ∧
      (Embed.to_dict z e).1.timestamp = some d0.isoformat) := by
  refine ⟨?_, ?_, ?_⟩
  · cases hts : e.timestamp with
    | none => simp [Embed.to_dict, hts, Embed.baseDict]
    | some w =>
      cases w with
      | dt d0 =>
        simp [Embed.to_dict, hts, TsVal.pyTruthy]
      | str s =>
        simp [Embed.to_dict, hts, Embed.baseDict]
  · intro d0 hts htz
    have hn : d0.tz.isNone = true := by simp [htz]
    refine ⟨?_, rfl, ?_⟩
    · simp [Embed.to_dict, hts, TsVal.pyTruthy, hn]
    · simp [Embed.to_dict, hts, TsVal.pyTruthy, hn]
  · intro d0 hts htz
    have hn : d0.tz.isNone = false := by
      cases ht : d0.tz with
      | none => exact absurd ht htz
      | some o => rfl
    constructor
    · simp [Embed.to_dict, hts, TsVal.pyTruthy, hn]
    · simp [Embed.to_dict, hts, TsVal.pyTruthy, hn]

/-- C8 witness: on an embed with the naive datetime ⟨7, none⟩ and local
offset 3, the timestamp key is emitted, and the stored timestamp becomes
the aware ⟨7, +3⟩ whose ISO string is emitted. -/
theorem C8_timestamp_emission_witness :
    (Embed.to_dict 3 (Embed.init none none none none none (some ⟨7, none⟩))).1.timestamp.isSome = true ∧
    (Embed.to_dict 3 (Embed.init none none none none none (some ⟨7, none⟩))).2.timestamp
      = some (.dt ⟨7, some 3⟩) := by
  have h := C8_timestamp_emission 3 (Embed.init none none none none none (some ⟨7, none⟩))
  exact ⟨by
    rw [(h.2.1 ⟨7, none⟩ rfl rfl).2.2]
    rfl,
    (h.2.1 ⟨7, none⟩ rfl rfl).1⟩

/-- C9: in the constructor, `colour` takes precedence over `color` when both
are given; with only one given, that one is used; either may be a raw
integer or a wrapper and the stored value is always the normalized wrapper
`Colour(int(·))`. -/
theorem C9_colour_precedence (t d u : Option String) (ts : Option DateTime)
    (c1 c2 : ColourArg) :
    (Embed.init t d (some c1) (some c2) u ts).colour = some ⟨c1.toInt⟩ ∧
    (Embed.init t d (some c1) none u ts).colour = some ⟨c1.toInt⟩ ∧
    (Embed.init t d none (some c2) u ts).colour = some ⟨c2.toInt⟩ :=
  ⟨rfl, rfl, rfl⟩

/-- C10: `remove_field` interprets a negative index Python-style: with
`n = len(fields) ≥ 1` and `-n ≤ i ≤ -1` it deletes the element at position
`n + i`; and the field sequence is left unchanged exactly when the index is
out of range (`i ≥ n` or `i < -n`). -/
theorem C10_remove_field_negative_index (e : Embed) (i : Int)
    (h1 : 1 ≤ e.fields.length)
    (h2 : -(e.fields.length : Int) ≤ i) (h3 : i ≤ -1) :
    (e.remove_field i).fields = e.fields.eraseIdx (i + e.fields.length).toNat ∧
    (∀ j : Int, ((e.remove_field j).fields = e.fields ↔
      ((e.fields.length : Int) ≤ j ∨ j < -(e.fields.length : Int)))) := by
  constructor
  · have h := delAt_eq_some e.fields i h2 (by omega)
    unfold Embed.remove_field
    rw [h.1]
    have hj : pyIndex e.fields.length i = i + e.fields.length := by
      unfold pyIndex
      rw [if_pos (by omega)]
    rw [hj]
  · intro j
    by_cases hj : (e.fields.length : Int) ≤ j ∨ j < -(e.fields.length : Int)
    · constructor
      · intro _
        exact hj
      · intro _
        unfold Embed.remove_field
        rw [delAt_eq_none e.fields j hj]
    · push_neg at hj
      obtain ⟨hlt, hge⟩ := hj
      have h := delAt_eq_some e.fields j hge hlt
      constructor
      · intro hu
        unfold Embed.remove_field at hu
        rw [h.1] at hu
        have hlen := congrArg List.length hu
        rw [length_eraseIdx_lt e.fields _ h.2] at hlen
        omega
      · intro hc
        exact absurd hc (by push_neg; exact ⟨hlt, hge⟩)

/-- C10 witness: on a two-field embed, `remove_field(-1)` deletes the field
at position 1 (the last). -/
theorem C10_remove_field_negative_index_witness :
    1 ≤ twoFieldEmbed.fields.length ∧
    (twoFieldEmbed.remove_field (-1)).fields
      = twoFieldEmbed.fields.eraseIdx
          ((-1 : Int) + (twoFieldEmbed.fields.length : Int)).toNat :=
  ⟨by decide,
   (C10_remove_field_negative_index twoFieldEmbed (-1) (by decide) (by decide)
     (by decide)).1⟩

end DiscordHttp
